import Mathlib

/-!
Shallow embedding of the instrumented code cache of
`frame/contracts/src/wasm/code_cache.rs` (functions `store` and `load`),
together with the surrounding data model it manipulates.

The two storage maps (`CodeStorage`, `PristineCode`), the record type
`PrefabWasmModule`, the `Schedule`, the error taxonomy and the instrumentation
entry point `prepare::prepare_contract` are declared outside the file under
verification; they are modelled from the specification where noted.
Byte strings are modelled as `List Nat`, content hashes as `Nat`, and the
`u64` reference counter as a `Nat` reduced modulo `2 ^ 64` where the source
performs machine arithmetic.
-/

set_option autoImplicit false

namespace CodeCache

/-- Raw wasm code bytes. -/
abbrev Bytes := List Nat

/-- Content hash (`CodeHash<T>`); the default value (`mem::take`) is `0`. -/
abbrev Hash := Nat

/-- Instrumented code (the derived artifact). -/
abbrev Artifact := List Nat

/-- Modelled from the spec: the ruleset (`Schedule`) is opaque to this
component except for its `version`, an unsigned integer. -/
structure Schedule where
  version : Nat
deriving DecidableEq, Repr

/-- Modelled from the spec: the error taxonomy surfaced by `store`/`load`.
`codeNotFound` is `Error::<T>::CodeNotFound`; `instrumentationFailed` stands
for the opaque dispatch error produced when `prepare::prepare_contract`
rejects the code. -/
inductive CacheError where
  | codeNotFound
  | instrumentationFailed
deriving DecidableEq, Repr

/-- Modelled from the spec: the in-memory handle / stored record
`PrefabWasmModule<T>`. `schedule_version` is the ruleset version the code was
instrumented under, `refcount` the `u64` owner counter, `code` the derived
artifact. `original_code` and `code_hash` are the transient fields: the raw
bytes travel only on first registration, and the hash slot is cleared on
`store` and re-populated on `load` (its cleared/default value is `0`). -/
structure PrefabWasmModule where
  schedule_version : Nat
  refcount : Nat
  code : Artifact
  original_code : Option Bytes
  code_hash : Hash
deriving DecidableEq, Repr

/-- Modelled from the spec: the Instrumentor, a pure fallible transform from
raw bytes and a ruleset to an artifact (`none` is a classified failure). -/
abbrev Instrumentor := Bytes → Schedule → Option Artifact

/-- The two keyed stores: `CodeStorage` (Artifact Cache) and `PristineCode`
(Raw Code Store), both keyed by content hash. -/
structure State where
  codeStorage : Hash → Option PrefabWasmModule
  pristineCode : Hash → Option Bytes

/-- The empty storage: both maps hold nothing. -/
def State.empty : State := ⟨fun _ => none, fun _ => none⟩

/-- `2 ^ 64`, the modulus of the `u64` refcount arithmetic. -/
def u64Mod : Nat := 18446744073709551616

/-- Modelled from the spec: what SCALE encoding persists of a record. The
stored record does not redundantly re-store the content hash, and the raw
bytes are never part of the cached record (`#[codec(skip)]` on the two
transient fields): decoding yields `none` / the default hash `0` for them. -/
def persisted (m : PrefabWasmModule) : PrefabWasmModule :=
  { m with original_code := none, code_hash := 0 }

/-- `<CodeStorage<T>>::insert`-style write of a record under a hash
(the persisted image of the record is what later reads observe). -/
def State.insertCode (s : State) (h : Hash) (m : PrefabWasmModule) : State :=
  { s with codeStorage := fun k => if k = h then some (persisted m) else s.codeStorage k }

/-- `<PristineCode<T>>::insert`: write raw bytes under a hash. -/
def State.insertPristine (s : State) (h : Hash) (b : Bytes) : State :=
  { s with pristineCode := fun k => if k = h then some b else s.pristineCode k }

/-- Modelled from the spec: `prepare::prepare_contract` invokes the
Instrumentor on the raw bytes under the given ruleset and, on success, builds
a fresh module tagged with the current ruleset version. The fresh module
carries the first-registration refcount of `1` (spec: a record is created on
first `store` with `refcount = 1`, implied by the caller; the spec's design
notes record that the source's re-derivation overwrite performs no explicit
carry-over of the prior count). The raw bytes ride along in the transient
`original_code` field and the transient hash slot is left at its default. -/
def prepare_contract (instr : Instrumentor) (original_code : Bytes)
    (schedule : Schedule) : Except CacheError PrefabWasmModule :=
  match instr original_code schedule with
  | some art => .ok { schedule_version := schedule.version, refcount := 1,
                      code := art, original_code := some original_code, code_hash := 0 }
  | none => .error .instrumentationFailed

/-- `store`: put the instrumented module in storage. Takes the hash out of the
handle (leaving the cleared default `0`), writes the raw bytes to
`PristineCode` when the handle carries them (taking them out too), then
mutates `CodeStorage`: an existing record gets its refcount incremented
(unchecked `u64` arithmetic, hence modulo `2 ^ 64`), otherwise the handle is
inserted as the new record. Returns the extracted hash and the new state. -/
def store (s : State) (prefab : PrefabWasmModule) : Hash × State :=
  let code_hash := prefab.code_hash
  let prefab := { prefab with code_hash := 0 }
  let step :=
    match prefab.original_code with
    | some code => (s.insertPristine code_hash code, { prefab with original_code := none })
    | none => (s, prefab)
  let s := step.1
  let prefab := step.2
  let s :=
    match s.codeStorage code_hash with
    | some module =>
        s.insertCode code_hash { module with refcount := (module.refcount + 1) % u64Mod }
    | none => s.insertCode code_hash prefab
  (code_hash, s)

/-- `load`: load code with the given code hash. Looks the record up in
`CodeStorage` (`CodeNotFound` when absent); when its stored schedule version
is strictly below the current one, fetches the raw bytes from `PristineCode`
(`CodeNotFound` when absent), re-instruments them under the current schedule
and overwrites the cache entry; finally re-populates the returned handle's
hash slot. The last component records the Instrumentor invocations the call
performed, as a list of (raw bytes, ruleset) argument pairs, so that
call-count properties can be stated. -/
def load (instr : Instrumentor) (s : State) (code_hash : Hash)
    (schedule : Schedule) :
    Except CacheError PrefabWasmModule × State × List (Bytes × Schedule) :=
  match s.codeStorage code_hash with
  | none => (.error .codeNotFound, s, [])
  | some prefab =>
    if prefab.schedule_version < schedule.version then
      match s.pristineCode code_hash with
      | none => (.error .codeNotFound, s, [])
      | some original_code =>
        match prepare_contract instr original_code schedule with
        | .error e => (.error e, s, [(original_code, schedule)])
        | .ok pm =>
            (.ok { pm with code_hash := code_hash },
             s.insertCode code_hash pm,
             [(original_code, schedule)])
    else
      (.ok { prefab with code_hash := code_hash }, s, [])

/-! Concrete fixtures used to exercise the operations on closed inputs. -/

/-- A concrete Instrumentor that always succeeds: it prefixes the code with
the ruleset version (so distinct versions yield distinct artifacts). -/
def exInstr : Instrumentor := fun b sch => some (sch.version :: b)

/-- A concrete Instrumentor that fails exactly under ruleset version 2 and
otherwise behaves like `exInstr`. -/
def exInstrFail : Instrumentor :=
  fun b sch => if sch.version = 2 then none else some (sch.version :: b)

/-- A first-registration handle: raw bytes `[7, 7]`, artifact `[1, 7, 7]`
derived under schedule version 1, hash 5, refcount 1. -/
def exHandle : PrefabWasmModule :=
  { schedule_version := 1, refcount := 1, code := [1, 7, 7],
    original_code := some [7, 7], code_hash := 5 }

/-- The same handle without raw bytes (a re-registration of known code). -/
def exHandleNoRaw : PrefabWasmModule := { exHandle with original_code := none }

/-- State after one `store` of `exHandle` on empty storage. -/
def exState1 : State := (store State.empty exHandle).2

/-- State after a second `store` for the same hash, without raw bytes. -/
def exState2 : State := (store exState1 exHandleNoRaw).2

/-- State after a third `store` for the same hash, without raw bytes. -/
def exState3 : State := (store exState2 exHandleNoRaw).2

/-- A stored record whose refcount sits at the largest `u64` value. -/
def exRecordMax : PrefabWasmModule :=
  { schedule_version := 1, refcount := u64Mod - 1, code := [1, 7, 7],
    original_code := none, code_hash := 0 }

/-- Storage holding `exRecordMax` under hash 5 and no raw code. -/
def exStateMax : State := State.empty.insertCode 5 exRecordMax

/-- State after a first-time `store` whose handle carries no raw bytes:
an artifact record exists but the Raw Code Store stays empty. -/
def exStateNoRaw : State := (store State.empty exHandleNoRaw).2

/-! Theorems. -/

/-- Claim C3: when the cached record's stored schedule version equals the
current ruleset version, `load` performs no storage mutation and no
re-derivation (the Instrumentor is not invoked), and returns the stored
record bit-identically — with its stored artifact and stored schedule
version — only re-populating the transient hash slot. -/
theorem load_version_match_serves_cached (instr : Instrumentor) (s : State)
    (h : Hash) (sched : Schedule) (m : PrefabWasmModule)
    (hm : s.codeStorage h = some m)
    (hv : m.schedule_version = sched.version) :
    load instr s h sched = (.ok { m with code_hash := h }, s, []) := by
  simp [load, hm, hv]

/-- Witness for C3: after a single registration under version 1, a `load`
at version 1 returns the stored record with its hash restored, leaves the
state untouched and performs no Instrumentor invocation. -/
theorem load_version_match_serves_cached_witness :
    load exInstr exState1 5 ⟨1⟩ =
      (.ok { schedule_version := 1, refcount := 1, code := [1, 7, 7],
             original_code := none, code_hash := 5 }, exState1, []) :=
  load_version_match_serves_cached exInstr exState1 5 ⟨1⟩
    { schedule_version := 1, refcount := 1, code := [1, 7, 7],
      original_code := none, code_hash := 0 }
    (by decide) rfl

/-- Claim C9: when the current ruleset version is strictly lower than the
cached record's schedule version (a violation of the monotonic-version
invariant), `load` serves the cached, higher-versioned entry unchanged:
no re-derivation, no storage mutation, and the returned artifact and
version are the stored ones. -/
theorem load_lower_version_serves_cached (instr : Instrumentor) (s : State)
    (h : Hash) (sched : Schedule) (m : PrefabWasmModule)
    (hm : s.codeStorage h = some m)
    (hv : sched.version < m.schedule_version) :
    load instr s h sched = (.ok { m with code_hash := h }, s, []) := by
  have hnot : ¬ m.schedule_version < sched.version := Nat.lt_asymm hv
  simp [load, hm, hnot]

/-- Witness for C9: loading with ruleset version 0 while the cache holds a
version-1 record serves the cached entry unchanged. -/
theorem load_lower_version_serves_cached_witness :
    load exInstr exState3 5 ⟨0⟩ =
      (.ok { schedule_version := 1, refcount := 3, code := [1, 7, 7],
             original_code := none, code_hash := 5 }, exState3, []) :=
  load_lower_version_serves_cached exInstr exState3 5 ⟨0⟩
    { schedule_version := 1, refcount := 3, code := [1, 7, 7],
      original_code := none, code_hash := 0 }
    (by decide) (by decide)

/-- Claim C5: when re-derivation is required and the Instrumentor fails,
`load` returns the instrumentation failure and both stores are left
completely unchanged — the whole state is returned exactly as it was, so
the cached record keeps its prior artifact, schedule version and refcount
(no partial overwrite). -/
theorem load_instrumentation_failure_leaves_stores_unchanged
    (instr : Instrumentor) (s : State) (h : Hash) (sched : Schedule)
    (m : PrefabWasmModule) (b : Bytes)
    (hm : s.codeStorage h = some m)
    (hv : m.schedule_version < sched.version)
    (hb : s.pristineCode h = some b)
    (hf : instr b sched = none) :
    load instr s h sched = (.error .instrumentationFailed, s, [(b, sched)]) := by
  simp [load, hm, hv, hb, prepare_contract, hf]

/-- Witness for C5: with an Instrumentor that fails at version 2, a `load`
at version 2 over a version-1 record reports the failure and leaves the
state (hence the refcount-3 record and the raw bytes) untouched. -/
theorem load_instrumentation_failure_leaves_stores_unchanged_witness :
    load exInstrFail exState3 5 ⟨2⟩ =
      (.error .instrumentationFailed, exState3, [([7, 7], ⟨2⟩)]) :=
  load_instrumentation_failure_leaves_stores_unchanged exInstrFail exState3 5 ⟨2⟩
    { schedule_version := 1, refcount := 3, code := [1, 7, 7],
      original_code := none, code_hash := 0 }
    [7, 7] (by decide) (by decide) (by decide) (by decide)

/-- Claim C2: when the cached record's stored schedule version is strictly
below the current ruleset version and the raw bytes exist, `load` invokes
the Instrumentor exactly once, on those raw bytes with the current ruleset;
it overwrites the cache entry with the newly derived artifact tagged with
the current ruleset version, and returns that artifact (hash restored); a
subsequent `load` at the same version returns the same artifact, with no
further Instrumentor invocation and no further mutation. -/
theorem load_stale_rederives_once_and_caches
    (instr : Instrumentor) (s : State) (h : Hash) (sched : Schedule)
    (m : PrefabWasmModule) (b : Bytes) (a : Artifact)
    (hm : s.codeStorage h = some m)
    (hv : m.schedule_version < sched.version)
    (hb : s.pristineCode h = some b)
    (hi : instr b sched = some a) :
    (load instr s h sched).2.2 = [(b, sched)] ∧
    (load instr s h sched).1 =
      .ok { schedule_version := sched.version, refcount := 1, code := a,
            original_code := some b, code_hash := h } ∧
    (load instr s h sched).2.1.codeStorage h =
      some { schedule_version := sched.version, refcount := 1, code := a,
             original_code := none, code_hash := 0 } ∧
    load instr (load instr s h sched).2.1 h sched =
      (.ok { schedule_version := sched.version, refcount := 1, code := a,
             original_code := none, code_hash := h },
       (load instr s h sched).2.1, []) := by
  simp [load, hm, hv, hb, prepare_contract, hi, State.insertCode, persisted]

/-- Witness for C2: re-derivation of the refcount-3 record from version 1 to
version 2 calls the Instrumentor once on the raw bytes, caches and returns
artifact `[2, 7, 7]` at version 2, and a second load at version 2 serves it
from cache with no further invocation. -/
theorem load_stale_rederives_once_and_caches_witness :
    (load exInstr exState3 5 ⟨2⟩).2.2 = [([7, 7], ⟨2⟩)] ∧
    (load exInstr exState3 5 ⟨2⟩).1 =
      .ok { schedule_version := 2, refcount := 1, code := [2, 7, 7],
            original_code := some [7, 7], code_hash := 5 } ∧
    (load exInstr exState3 5 ⟨2⟩).2.1.codeStorage 5 =
      some { schedule_version := 2, refcount := 1, code := [2, 7, 7],
             original_code := none, code_hash := 0 } ∧
    load exInstr (load exInstr exState3 5 ⟨2⟩).2.1 5 ⟨2⟩ =
      (.ok { schedule_version := 2, refcount := 1, code := [2, 7, 7],
             original_code := none, code_hash := 5 },
       (load exInstr exState3 5 ⟨2⟩).2.1, []) :=
  load_stale_rederives_once_and_caches exInstr exState3 5 ⟨2⟩
    { schedule_version := 1, refcount := 3, code := [1, 7, 7],
      original_code := none, code_hash := 0 }
    [7, 7] [2, 7, 7] (by decide) (by decide) (by decide) (by decide)

/-- Claim C6: `load` fails with `CodeNotFound` exactly when the requested
hash is absent from the Artifact Cache, or re-derivation is required (stored
version strictly below the current one) and the hash is absent from the Raw
Code Store; and whenever it so fails, no storage is mutated. -/
theorem load_codeNotFound_characterization
    (instr : Instrumentor) (s : State) (h : Hash) (sched : Schedule) :
    ((load instr s h sched).1 = .error .codeNotFound ↔
      s.codeStorage h = none ∨
        ∃ m, s.codeStorage h = some m ∧ m.schedule_version < sched.version ∧
          s.pristineCode h = none) ∧
    ((load instr s h sched).1 = .error .codeNotFound →
      (load instr s h sched).2.1 = s) := by
  rcases hm : s.codeStorage h with _ | m
  · simp [load, hm]
  · by_cases hv : m.schedule_version < sched.version
    · rcases hb : s.pristineCode h with _ | b
      · simp [load, hm, hv, hb]
      · rcases hib : instr b sched with _ | a
        · simp [load, hm, hv, hb, prepare_contract, hib]
        · simp [load, hm, hv, hb, prepare_contract, hib]
    · simp [load, hm, hv]

/-- Witness for C6: on empty storage any hash fails with `CodeNotFound` and
the state is unchanged. -/
theorem load_codeNotFound_characterization_witness :
    (load exInstr State.empty 9 ⟨1⟩).1 = .error .codeNotFound ∧
    (load exInstr State.empty 9 ⟨1⟩).2.1 = State.empty := by
  have h1 := (load_codeNotFound_characterization exInstr State.empty 9 ⟨1⟩).1.mpr
    (Or.inl rfl)
  exact ⟨h1, (load_codeNotFound_characterization exInstr State.empty 9 ⟨1⟩).2 h1⟩

/-- Claim C7: `store` takes the handle's hash as the storage key and returns
it as its result, and the record it writes has a cleared hash slot; every
successful `load` returns a handle whose hash slot has been re-populated
with the requested hash. -/
theorem store_strips_hash_and_load_restores
    (instr : Instrumentor) (s t : State) (m : PrefabWasmModule) (h : Hash)
    (sched : Schedule) :
    (store s m).1 = m.code_hash ∧
    ((store s m).2.codeStorage m.code_hash).map (fun r => r.code_hash) =
      some 0 ∧
    (∀ pm, (load instr t h sched).1 = .ok pm → pm.code_hash = h) := by
  refine ⟨rfl, ?_, ?_⟩
  · rcases hoc : m.original_code with _ | c
    · rcases hcs : s.codeStorage m.code_hash with _ | ex <;>
        simp [store, hoc, hcs, State.insertCode, persisted]
    · rcases hcs : s.codeStorage m.code_hash with _ | ex <;>
        simp [store, hoc, hcs, State.insertPristine, State.insertCode, persisted]
  · intro pm hpm
    rcases hcs : t.codeStorage h with _ | m0
    · simp [load, hcs] at hpm
    · by_cases hv : m0.schedule_version < sched.version
      · rcases hb : t.pristineCode h with _ | b
        · simp [load, hcs, hv, hb] at hpm
        · rcases hib : instr b sched with _ | a
          · simp [load, hcs, hv, hb, prepare_contract, hib] at hpm
          · simp [load, hcs, hv, hb, prepare_contract, hib] at hpm
            simp [← hpm]
      · simp [load, hcs, hv] at hpm
        simp [← hpm]

/-- Witness for C7: storing the example handle on empty storage returns its
hash 5 and writes a record with a cleared hash slot; the record returned by
a successful `load` of hash 5 carries hash 5. -/
theorem store_strips_hash_and_load_restores_witness :
    (store State.empty exHandle).1 = exHandle.code_hash ∧
    ((store State.empty exHandle).2.codeStorage exHandle.code_hash).map
      (fun r => r.code_hash) = some 0 ∧
    ({ schedule_version := 1, refcount := 1, code := [1, 7, 7],
       original_code := none, code_hash := 5 } : PrefabWasmModule).code_hash
      = 5 := by
  obtain ⟨h1, h2, h3⟩ :=
    store_strips_hash_and_load_restores exInstr State.empty exState1 exHandle 5 ⟨1⟩
  exact ⟨h1, h2, h3 _ rfl⟩

/-- Claim C4: `store` inserts the handle's artifact, version and refcount as
the new record when no record exists under the handle's hash; when a record
exists it leaves its artifact and version untouched and only increments the
refcount; and the concrete three-store scenario (first with raw bytes, the
next two without) yields a single raw-code entry and refcount 3. -/
theorem store_upsert_semantics (s : State) (m : PrefabWasmModule) :
    (s.codeStorage m.code_hash = none →
      (store s m).2.codeStorage m.code_hash =
        some { schedule_version := m.schedule_version, refcount := m.refcount,
               code := m.code, original_code := none, code_hash := 0 }) ∧
    (∀ ex, s.codeStorage m.code_hash = some ex →
      ((store s m).2.codeStorage m.code_hash).map (fun r => r.code) =
        some ex.code ∧
      ((store s m).2.codeStorage m.code_hash).map (fun r => r.schedule_version) =
        some ex.schedule_version ∧
      ((store s m).2.codeStorage m.code_hash).map (fun r => r.refcount) =
        some ((ex.refcount + 1) % u64Mod)) ∧
    (exState3.codeStorage 5).map (fun r => r.refcount) = some 3 ∧
    (∀ k, exState3.pristineCode k = if k = 5 then some [7, 7] else none) := by
  refine ⟨?_, ?_, by decide, ?_⟩
  · intro hnone
    rcases hoc : m.original_code with _ | c <;>
      simp [store, hoc, hnone, State.insertPristine, State.insertCode, persisted]
  · intro ex hex
    rcases hoc : m.original_code with _ | c <;>
      simp [store, hoc, hex, State.insertPristine, State.insertCode, persisted]
  · intro k
    by_cases hk : k = 5 <;>
      simp [exState3, exState2, exState1, store, exHandle, exHandleNoRaw,
            State.insertPristine, State.insertCode, State.empty, persisted, hk]

/-- Witness for C4: the fresh-insert branch at the example handle on empty
storage, and the increment branch at the one-registration state. -/
theorem store_upsert_semantics_witness :
    (store State.empty exHandle).2.codeStorage exHandle.code_hash =
      some { schedule_version := exHandle.schedule_version,
             refcount := exHandle.refcount, code := exHandle.code,
             original_code := none, code_hash := 0 } ∧
    ((store exState1 exHandleNoRaw).2.codeStorage exHandleNoRaw.code_hash).map
      (fun r => r.refcount) = some ((1 + 1) % u64Mod) := by
  refine ⟨(store_upsert_semantics State.empty exHandle).1 rfl, ?_⟩
  have h2 := ((store_upsert_semantics exState1 exHandleNoRaw).2.1
    { schedule_version := 1, refcount := 1, code := [1, 7, 7],
      original_code := none, code_hash := 0 } (by decide)).2.2
  exact h2

/-- Claim C8 counterexample: at the largest representable refcount, `store`'s
increment is a silent `u64` wraparound — the call completes and the stored
refcount becomes 0 — rather than any fatal assertion failure. -/
theorem store_refcount_wraps_at_max :
    (exStateMax.codeStorage 5).map (fun r => r.refcount) = some (u64Mod - 1) ∧
    ((store exStateMax exHandleNoRaw).2.codeStorage 5).map (fun r => r.refcount) =
      some 0 := by
  decide

/-- Claim C8 (amended): `store` on an existing record performs an unchecked
`u64` increment of the refcount — modulo `2 ^ 64`, wrapping to 0 at the
maximum — and below the maximum the increment is exact, so under the
external bound on the number of references the wrap is unreachable. -/
theorem store_refcount_unchecked_increment (s : State) (m ex : PrefabWasmModule)
    (hex : s.codeStorage m.code_hash = some ex) :
    ((store s m).2.codeStorage m.code_hash).map (fun r => r.refcount) =
      some ((ex.refcount + 1) % u64Mod) ∧
    (ex.refcount + 1 < u64Mod →
      ((store s m).2.codeStorage m.code_hash).map (fun r => r.refcount) =
        some (ex.refcount + 1)) := by
  have h1 : ((store s m).2.codeStorage m.code_hash).map (fun r => r.refcount) =
      some ((ex.refcount + 1) % u64Mod) := by
    rcases hoc : m.original_code with _ | c <;>
      simp [store, hoc, hex, State.insertPristine, State.insertCode, persisted]
  exact ⟨h1, fun hlt => by rw [h1, Nat.mod_eq_of_lt hlt]⟩

/-- Witness for C8's amended claim: incrementing from refcount 3 gives 4,
both as the wrapped and as the exact value. -/
theorem store_refcount_unchecked_increment_witness :
    ((store exState3 exHandleNoRaw).2.codeStorage exHandleNoRaw.code_hash).map
      (fun r => r.refcount) = some ((3 + 1) % u64Mod) ∧
    (3 + 1 < u64Mod →
      ((store exState3 exHandleNoRaw).2.codeStorage exHandleNoRaw.code_hash).map
        (fun r => r.refcount) = some (3 + 1)) :=
  store_refcount_unchecked_increment exState3 exHandleNoRaw
    { schedule_version := 1, refcount := 3, code := [1, 7, 7],
      original_code := none, code_hash := 0 }
    (by decide)

/-- Claim C1 (refuted): a `load` that triggers re-derivation does change the
refcount of the stored record. At the concrete failing input — refcount 3
at version 1, raw bytes present, instrumentation succeeding at version 2 —
the overwrite installs the freshly prepared module, whose refcount is the
first-registration value 1, so the stored refcount drops from 3 to 1. -/
theorem load_rederivation_resets_refcount :
    (exState3.codeStorage 5).map (fun r => r.refcount) = some 3 ∧
    ((load exInstr exState3 5 ⟨2⟩).2.1.codeStorage 5).map (fun r => r.refcount) =
      some 1 := by
  decide

/-- Claim C10: a first-time `store` whose handle carries no raw bytes leaves
an artifact record without any raw-code entry, so a later `load` for that
hash under a strictly newer ruleset version takes the defensive raw-code
branch and fails with `CodeNotFound`, mutating nothing. -/
theorem store_no_raw_then_stale_load_codeNotFound :
    (exStateNoRaw.codeStorage 5).map (fun r => r.schedule_version) = some 1 ∧
    (∀ k, exStateNoRaw.pristineCode k = none) ∧
    load exInstr exStateNoRaw 5 ⟨2⟩ = (.error .codeNotFound, exStateNoRaw, []) :=
  ⟨by decide, fun _ => rfl, rfl⟩

end CodeCache
